import Mathlib

/-!
Verification development for the two field codecs in
`st2common/st2common/fields.py`:

* `ComplexDateTimeField` — stores a microsecond-precision UTC datetime as the
  number of microseconds since the Unix epoch (a 64-bit integer in storage).
* `JSONDictField` / `JSONDictEscapedFieldCompatibilityField` — store a
  dictionary as a JSON-serialized byte string, with a read-side compatibility
  path for the older escaped-native-dict format.

Python integer `//` and `%` are floored division and floored modulus; they are
embedded as `Int.fdiv` and `Int.fmod`.
-/

/-! ## Datetime model

A Python `datetime.datetime` is embedded as the whole-second count named by its
wall-clock calendar fields read as UTC (`secs`, exactly the value
`calendar.timegm(value.timetuple())` returns, since `timetuple()` discards the
microsecond and tzinfo parts), the microsecond field (`usec`, in
`[0, 999999]` for every constructible Python datetime), and the UTC offset of
its tzinfo in seconds (`tzOffset`; `none` embeds a naive datetime). -/
structure Datetime where
  secs : Int
  usec : Nat
  tzOffset : Option Int
deriving DecidableEq

def SECOND_TO_MICROSECONDS : Int := 1000000

/-! Python `datetime.datetime.utcfromtimestamp` only accepts timestamps whose
civil year lies in `datetime.MINYEAR .. datetime.MAXYEAR = 1 .. 9999`; outside
that range it raises. The civil year of an epoch-second count is computed with
the standard days-to-civil-date algorithm over the proleptic Gregorian
calendar. -/

/-- Civil (Gregorian) year containing the day `days` counted from 1970-01-01. -/
def yearOfEpochDays (days : Int) : Int :=
  let z := days + 719468
  let era := z.fdiv 146097
  let doe := z - era * 146097
  let yoe := (doe - doe / 1460 + doe / 36524 - doe / 146096) / 365
  let y := yoe + era * 400
  let doy := doe - (365 * yoe + yoe / 4 - yoe / 100)
  let mp := (5 * doy + 2) / 153
  let m := if mp < 10 then mp + 3 else mp - 9
  y + (if m ≤ 2 then 1 else 0)

/-- Civil year containing the instant `secs` seconds after the Unix epoch. -/
def yearOfEpochSeconds (secs : Int) : Int :=
  yearOfEpochDays (secs.fdiv 86400)

/-- Embeds `datetime.datetime.utcfromtimestamp(t)` for an integer `t`: a naive
datetime whose wall clock is the UTC reading of `t` and whose microsecond
field is `0`; fails (`None` embeds the raised error) when the civil year falls
outside `1 .. 9999`. -/
def utcfromtimestamp (t : Int) : Option Datetime :=
  if 1 ≤ yearOfEpochSeconds t ∧ yearOfEpochSeconds t ≤ 9999 then
    some { secs := t, usec := 0, tzOffset := none }
  else
    none

/-- Embeds `calendar.timegm(value.timetuple())`: `timetuple()` exposes the
wall-clock calendar fields without microsecond or tzinfo, and `timegm` maps
them to an epoch-second count reading them as UTC — which is exactly the
`secs` component of the embedding. -/
def timegm_timetuple (value : Datetime) : Int :=
  value.secs

/-- Modelled from the spec: `st2common.util.date.add_utc_tz` is not among the
provided sources; per the spec the decoder "builds a UTC Timestamp", so this
attaches the UTC timezone (offset zero) to a datetime. -/
def add_utc_tz (dt : Datetime) : Datetime :=
  { dt with tzOffset := some 0 }

/-- Embeds `ComplexDateTimeField._microseconds_since_epoch_to_datetime`:
`utcfromtimestamp(data // 10**6)`, then `replace(microsecond=data % 10**6)`,
then `add_utc_tz`. `None` embeds a raised error. -/
def microseconds_since_epoch_to_datetime (data : Int) : Option Datetime :=
  match utcfromtimestamp (data.fdiv SECOND_TO_MICROSECONDS) with
  | none => none
  | some result =>
      let microseconds_reminder := data.fmod SECOND_TO_MICROSECONDS
      some (add_utc_tz { result with usec := microseconds_reminder.toNat })

/-- Embeds `ComplexDateTimeField._datetime_to_microseconds_since_epoch`:
rejects a value without tzinfo (`none`, the falsy case of `not value.tzinfo`)
or whose `utcoffset` is not zero, then returns
`timegm(value.timetuple()) * 10**6 + value.time().microsecond`. -/
def datetime_to_microseconds_since_epoch (value : Datetime) : Except String Int :=
  match value.tzOffset with
  | none => .error "Value passed to this function needs to be in UTC timezone"
  | some off =>
      if off ≠ 0 then
        .error "Value passed to this function needs to be in UTC timezone"
      else
        .ok (timegm_timetuple value * SECOND_TO_MICROSECONDS + value.usec)

/-! ## The runtime values reaching the ComplexDateTimeField hooks

A value handed to `__get__` / `__set__` / `to_python` is `None`, an `int`
(the stored microsecond count), a `datetime`, or some other object (a string
stands in for the rest). -/
inductive TsVal where
  | vnone
  | vint (n : Int)
  | vdt (d : Datetime)
  | vstr (s : String)
deriving DecidableEq

/-- Python truthiness of the values in `TsVal`: `None` is falsy, `0` is falsy,
the empty string is falsy, a datetime is always truthy. -/
def TsVal.truthy : TsVal → Bool
  | .vnone => false
  | .vint n => n ≠ 0
  | .vstr s => s ≠ ""
  | .vdt _ => true

/-- Embeds `ComplexDateTimeField._convert_from_db` applied to an arbitrary
runtime value: only an `int` supports `data // 10**6` (anything else raises a
TypeError), and on an `int` it is `_microseconds_since_epoch_to_datetime`. -/
def convert_from_db : TsVal → Except String TsVal
  | .vint n =>
      match microseconds_since_epoch_to_datetime n with
      | some d => .ok (.vdt d)
      | none => .error "ValueError: year out of range"
  | _ => .error "TypeError: unsupported operand"

/-- Embeds `ComplexDateTimeField._convert_from_datetime` applied to an
arbitrary runtime value: only a `datetime` has the attributes the conversion
reads (anything else raises an AttributeError). -/
def convert_from_datetime : TsVal → Except String Int
  | .vdt d => datetime_to_microseconds_since_epoch d
  | _ => .error "AttributeError"

/-- Embeds `ComplexDateTimeField.to_python`: try `_convert_from_db(value)`
and return the original value on any exception. -/
def ComplexDateTimeField_to_python (value : TsVal) : TsVal :=
  match convert_from_db value with
  | .ok result => result
  | .error _ => value

/-- Embeds `ComplexDateTimeField.__set__`: the value is converted with
`_convert_from_datetime` only when it is truthy, then handed to the stock
field; the returned value is what gets stored. -/
def ComplexDateTimeField_set (value : TsVal) : Except String TsVal :=
  if value.truthy then (convert_from_datetime value).map .vint else .ok value

/-- Embeds `ComplexDateTimeField.__get__` on the stored data: `None` is
returned as is, a `datetime` is returned as is, anything else goes through
`_convert_from_db` (whose exceptions propagate). -/
def ComplexDateTimeField_get : TsVal → Except String TsVal
  | .vnone => .ok .vnone
  | .vdt d => .ok (.vdt d)
  | v => convert_from_db v

/-- Chronological (instant) order on UTC datetimes: earlier second count, or
equal seconds and earlier microsecond. -/
def chronoBefore (a b : Datetime) : Prop :=
  a.secs < b.secs ∨ (a.secs = b.secs ∧ a.usec < b.usec)

/-! ## JSON-compatible runtime values

The values flowing through `JSONDictField.to_mongo` / `to_python` are Python
`None`, booleans, ints, strings (one constructor stands for both `str` and
`bytes`, which the code treats alike), lists, and dicts. The mutual list
types are the usual cons lists specialised to this family. -/
mutual
inductive Py where
  | pnone
  | pbool (b : Bool)
  | pint (n : Int)
  | pstr (s : String)
  | plist (xs : PyList)
  | pdict (kvs : PyKvs)
deriving DecidableEq

inductive PyList where
  | nil
  | cons (hd : Py) (tl : PyList)
deriving DecidableEq

inductive PyKvs where
  | nil
  | cons (k : String) (v : Py) (tl : PyKvs)
deriving DecidableEq
end

/-- Python `isinstance(value, dict)`. -/
def Py.isDict : Py → Bool
  | .pdict _ => true
  | _ => false

/-- Python `isinstance(value, (six.text_type, six.binary_type))`. -/
def Py.isText : Py → Bool
  | .pstr _ => true
  | _ => false

/-- A JSON serialization backend, the pair of functions stored on the field as
`self.json_dumps` / `self.json_loads` (`orjson`, `ujson` or `cjson`).
`dumps` serializes a dict to a byte string; `loads` parses a byte string back
to a runtime value. -/
structure JsonBackend where
  dumps : PyKvs → String
  loads : String → Py

/-- The backend choice fixed by `JSONDictField.__init__`. -/
inductive JsonBackendChoice where
  | orjson
  | ujson
  | cjson
deriving DecidableEq

/-- Embeds `JSONDictField.__init__`: the `json_backend` kwarg defaults to
`"orjson"`; a name outside the three recognized ones raises a ValueError;
otherwise the matching backend is selected and fixed on the instance. -/
def JSONDictField_init (kw_json_backend : Option String) : Except String JsonBackendChoice :=
  let json_backend := kw_json_backend.getD "orjson"
  if json_backend ∉ ["orjson", "ujson", "cjson"] then
    .error ("Unsupported backend: " ++ json_backend)
  else if json_backend = "orjson" then .ok .orjson
  else if json_backend = "ujson" then .ok .ujson
  else .ok .cjson

/-- Embeds `JSONDictField.to_mongo`: raises a ValueError unless the value is a
dict, otherwise returns `self.json_dumps(value)` (a byte string). -/
def JSONDictField_to_mongo (B : JsonBackend) : Py → Except String Py
  | .pdict kvs => .ok (.pstr (B.dumps kvs))
  | _ => .error "value argument must be a dictionary"

/-- Embeds `JSONDictField.to_python`: a textual or binary value is parsed with
`self.json_loads`; anything else is returned unchanged. -/
def JSONDictField_to_python (B : JsonBackend) : Py → Py
  | .pstr s => B.loads s
  | v => v

/-- Single-character translations used by the escaped-dict storage format:
the fullwidth dollar sign stands for `$` and the fullwidth full stop for
`.`. -/
def escDollar : Char := Char.ofNat 0xFF04

def escDot : Char := Char.ofNat 0xFF0E

/-- Restores one escaped key: every fullwidth dollar sign becomes `$` and
every fullwidth full stop becomes `.`. -/
def unescapeKey (k : String) : String :=
  String.mk (k.data.map fun c =>
    if c = escDollar then Char.ofNat 36
    else if c = escDot then Char.ofNat 46
    else c)

mutual
/-- Modelled from the spec: `st2common.util.mongoescape.unescape_chars` is not
among the provided sources. Per the spec, the transform recursively walks the
mapping and restores any keys whose reserved characters `$` and `.` were
escaped back to their original form, leaving non-mapping values untouched. -/
def unescape_chars : Py → Py
  | .pdict kvs => .pdict (unescapeKvs kvs)
  | v => v

/-- Key-unescaping transform on the entries of a mapping: each key is
unescaped and each mapping value is transformed recursively. -/
def unescapeKvs : PyKvs → PyKvs
  | .nil => .nil
  | .cons k v rest => .cons (unescapeKey k) (unescape_chars v) (unescapeKvs rest)
end

/-- Embeds `JSONDictEscapedFieldCompatibilityField.to_mongo`: raises a
ValueError unless the value is a dict, otherwise returns
`self.json_dumps(value)` — always the current byte-serialized format. -/
def JSONDictEscapedFieldCompatibilityField_to_mongo (B : JsonBackend) : Py → Except String Py
  | .pdict kvs => .ok (.pstr (B.dumps kvs))
  | _ => .error "value argument must be a dictionary"

/-- Embeds `JSONDictEscapedFieldCompatibilityField.to_python`: a native dict
is the old escaped format and is unescaped; a textual or binary value is
parsed with `self.json_loads`; anything else is returned unchanged. -/
def JSONDictEscapedFieldCompatibilityField_to_python (B : JsonBackend) : Py → Py
  | .pdict kvs => unescape_chars (.pdict kvs)
  | .pstr s => B.loads s
  | v => v

/-! ## Structural equality of runtime values

Python `==` on dicts ignores key order. The canonical form sorts every
dict's entries by key, recursively, so two values are `==` in Python exactly
when their canonical forms coincide (for dicts without duplicate keys, which
is every constructible Python dict). -/

/-- Lexicographic comparison of character lists by character code; a fully
computation-friendly stand-in for the library string order, used only to fix
a canonical order of dict entries. -/
def charsLe : List Char → List Char → Bool
  | [], _ => true
  | _ :: _, [] => false
  | a :: as, b :: bs =>
      if a.toNat = b.toNat then charsLe as bs
      else Nat.ble a.toNat b.toNat

/-- Lexicographic comparison of strings by character code. -/
def strLe (a b : String) : Bool :=
  charsLe a.data b.data

/-- Inserts an entry into a key-sorted entry list, keeping it sorted. -/
def insertKvSorted (k : String) (v : Py) : PyKvs → PyKvs
  | .nil => .cons k v .nil
  | .cons k2 v2 rest =>
      if strLe k k2 then .cons k v (.cons k2 v2 rest)
      else .cons k2 v2 (insertKvSorted k v rest)

/-- Insertion sort of a dict's entries by key. -/
def sortKvsByKey : PyKvs → PyKvs
  | .nil => .nil
  | .cons k v rest => insertKvSorted k v (sortKvsByKey rest)

mutual
/-- Canonical form of a runtime value: dict entries are recursively sorted by
key at every nesting level. -/
def canonPy : Py → Py
  | .plist xs => .plist (canonList xs)
  | .pdict kvs => .pdict (sortKvsByKey (canonKvs kvs))
  | v => v

/-- Canonical form of every element of a list. -/
def canonList : PyList → PyList
  | .nil => .nil
  | .cons hd tl => .cons (canonPy hd) (canonList tl)

/-- Canonical form of every value of a dict entry list. -/
def canonKvs : PyKvs → PyKvs
  | .nil => .nil
  | .cons k v rest => .cons k (canonPy v) (canonKvs rest)
end

/-! ## A concrete serialization backend

The three production backends are external JSON libraries; for concrete
instantiation the development carries one executable backend: a printer to the
usual compact JSON text and a recursive-descent parser for that text. -/

def quoteChar : Char := Char.ofNat 34

def lbraceChar : Char := Char.ofNat 123

def rbraceChar : Char := Char.ofNat 125

mutual
/-- Compact JSON text of a runtime value (strings are emitted verbatim, which
is exact for strings without quotes or escapes). -/
def printPy : Py → String
  | .pnone => "null"
  | .pbool b => if b then "true" else "false"
  | .pint n => toString n
  | .pstr s => String.mk (quoteChar :: s.data ++ [quoteChar])
  | .plist xs => "[" ++ printList xs ++ "]"
  | .pdict kvs => String.mk [lbraceChar] ++ printKvs kvs ++ String.mk [rbraceChar]

/-- Comma-separated JSON text of list elements. -/
def printList : PyList → String
  | .nil => ""
  | .cons hd .nil => printPy hd
  | .cons hd tl => printPy hd ++ "," ++ printList tl

/-- Comma-separated JSON text of dict entries. -/
def printKvs : PyKvs → String
  | .nil => ""
  | .cons k v .nil => String.mk (quoteChar :: k.data ++ [quoteChar]) ++ ":" ++ printPy v
  | .cons k v tl =>
      String.mk (quoteChar :: k.data ++ [quoteChar]) ++ ":" ++ printPy v ++ "," ++ printKvs tl
end

/-- Digits of a decimal literal folded to a natural number. -/
def digitsToNat (cs : List Char) : Nat :=
  cs.foldl (fun a c => a * 10 + (c.toNat - 48)) 0

mutual
/-- Parses one JSON value from the head of the character list; the fuel
argument bounds the recursion depth. -/
def parsePy : Nat → List Char → Option (Py × List Char)
  | 0, _ => none
  | _ + 1, 'n' :: 'u' :: 'l' :: 'l' :: rest => some (.pnone, rest)
  | _ + 1, 't' :: 'r' :: 'u' :: 'e' :: rest => some (.pbool true, rest)
  | _ + 1, 'f' :: 'a' :: 'l' :: 's' :: 'e' :: rest => some (.pbool false, rest)
  | _ + 1, '-' :: c :: rest =>
      if c.isDigit then
        let ds := (c :: rest).takeWhile Char.isDigit
        some (.pint (-(digitsToNat ds : Int)), (c :: rest).dropWhile Char.isDigit)
      else none
  | fuel + 1, c :: rest =>
      if c = quoteChar then
        let s := rest.takeWhile (fun d => d ≠ quoteChar)
        match rest.dropWhile (fun d => d ≠ quoteChar) with
        | q :: rest2 => if q = quoteChar then some (.pstr (String.mk s), rest2) else none
        | [] => none
      else if c = '[' then
        match rest with
        | ']' :: rest2 => some (.plist .nil, rest2)
        | _ => match parseListItems fuel rest with
               | some (xs, rest2) => some (.plist xs, rest2)
               | none => none
      else if c = lbraceChar then
        match rest with
        | d :: rest2 => if d = rbraceChar then some (.pdict .nil, rest2) else
            match parseKvItems fuel rest with
            | some (kvs, rest2) => some (.pdict kvs, rest2)
            | none => none
        | [] => none
      else if c.isDigit then
        let ds := (c :: rest).takeWhile Char.isDigit
        some (.pint (digitsToNat ds : Int), (c :: rest).dropWhile Char.isDigit)
      else none
  | _ + 1, [] => none

/-- Parses the comma-separated elements of a non-empty JSON array, consuming
the closing bracket. -/
def parseListItems : Nat → List Char → Option (PyList × List Char)
  | 0, _ => none
  | fuel + 1, cs =>
      match parsePy fuel cs with
      | some (v, ',' :: rest) =>
          match parseListItems fuel rest with
          | some (xs, rest2) => some (.cons v xs, rest2)
          | none => none
      | some (v, ']' :: rest) => some (.cons v .nil, rest)
      | _ => none

/-- Parses the comma-separated entries of a non-empty JSON object, consuming
the closing brace. -/
def parseKvItems : Nat → List Char → Option (PyKvs × List Char)
  | 0, _ => none
  | fuel + 1, c :: cs =>
      if c = quoteChar then
        let k := cs.takeWhile (fun d => d ≠ quoteChar)
        match cs.dropWhile (fun d => d ≠ quoteChar) with
        | q :: ':' :: rest =>
            if q = quoteChar then
              match parsePy fuel rest with
              | some (v, ',' :: rest2) =>
                  match parseKvItems fuel rest2 with
                  | some (kvs, rest3) => some (.cons (String.mk k) v kvs, rest3)
                  | none => none
              | some (v, d :: rest2) =>
                  if d = rbraceChar then some (.cons (String.mk k) v .nil, rest2) else none
              | _ => none
            else none
        | _ => none
      else none
  | _ + 1, [] => none
end

/-- Parses a complete JSON text to a runtime value; anything unparseable maps
to `None` (the concrete stand-in for a raised error, which never occurs on
printer output). -/
def parseJsonText (s : String) : Py :=
  match parsePy (s.length + 1) s.data with
  | some (v, []) => v
  | _ => .pnone

/-- The concrete executable backend built from the printer and the parser. -/
def demoBackend : JsonBackend :=
  { dumps := fun kvs => printPy (.pdict kvs), loads := parseJsonText }

/-- The mapping of spec example 10: `{"status": "ok", "count": 3}`. -/
def demoKvs : PyKvs := .cons "status" (.pstr "ok") (.cons "count" (.pint 3) .nil)

/-! ## Helper lemmas -/

/-- Floored division of `s * 10^6 + u` by `10^6` recovers `s` when
`u < 10^6`. -/
theorem fdiv_mul_add_self (s : Int) (u : Nat) (hu : u < 1000000) :
    (s * 1000000 + (u : Int)).fdiv 1000000 = s := by
  rw [Int.fdiv_eq_ediv _ (by norm_num)]
  omega

/-- Floored modulus of `s * 10^6 + u` by `10^6` recovers `u` when
`u < 10^6`. -/
theorem fmod_mul_add_self (s : Int) (u : Nat) (hu : u < 1000000) :
    (s * 1000000 + (u : Int)).fmod 1000000 = (u : Int) := by
  rw [Int.fmod_eq_emod _ (by norm_num)]
  omega

/-- The floored modulus by `10^6` is nonnegative. -/
theorem fmod_million_nonneg (n : Int) : 0 ≤ n.fmod 1000000 := by
  rw [Int.fmod_eq_emod _ (by norm_num)]
  exact Int.emod_nonneg n (by norm_num)

/-- Floored division and modulus by `10^6` recompose to the dividend. -/
theorem fdiv_add_fmod_million (n : Int) :
    n.fdiv 1000000 * 1000000 + n.fmod 1000000 = n := by
  rw [Int.fdiv_eq_ediv _ (by norm_num), Int.fmod_eq_emod _ (by norm_num)]
  omega

/-! ## Claim theorems: timestamp codec -/

/-- C1 (amended). Round-trip of the timestamp codec within the representable
calendar range: for every UTC Timestamp `t` with microsecond resolution,
decoding the encoded integer yields `t` back; and for every 64-bit integer
`n` whose seconds component `n // 10^6` falls in calendar years 1–9999
(including zero and negative `n` in that range), re-encoding the decoded
Timestamp yields `n`. -/
theorem timestamp_roundtrip_in_calendar_range (t : Datetime) (n : Int)
    (htz : t.tzOffset = some 0) (hu : t.usec < 1000000)
    (hty1 : 1 ≤ yearOfEpochSeconds t.secs) (hty2 : yearOfEpochSeconds t.secs ≤ 9999)
    (hny1 : 1 ≤ yearOfEpochSeconds (n.fdiv 1000000))
    (hny2 : yearOfEpochSeconds (n.fdiv 1000000) ≤ 9999) :
    (datetime_to_microseconds_since_epoch t = .ok (t.secs * 1000000 + t.usec) ∧
      microseconds_since_epoch_to_datetime (t.secs * 1000000 + t.usec) = some t) ∧
    (microseconds_since_epoch_to_datetime n =
        some ⟨n.fdiv 1000000, (n.fmod 1000000).toNat, some 0⟩ ∧
      datetime_to_microseconds_since_epoch
        ⟨n.fdiv 1000000, (n.fmod 1000000).toNat, some 0⟩ = .ok n) := by
  refine ⟨⟨?_, ?_⟩, ?_, ?_⟩
  · simp [datetime_to_microseconds_since_epoch, htz, timegm_timetuple,
      SECOND_TO_MICROSECONDS]
  · unfold microseconds_since_epoch_to_datetime utcfromtimestamp
    simp only [SECOND_TO_MICROSECONDS]
    rw [fdiv_mul_add_self t.secs t.usec hu, fmod_mul_add_self t.secs t.usec hu]
    rw [if_pos ⟨hty1, hty2⟩]
    simp only [add_utc_tz, Option.some.injEq]
    cases t with
    | mk secs usec tzOffset =>
        simp only at htz
        simp [htz, Int.toNat_natCast]
  · unfold microseconds_since_epoch_to_datetime utcfromtimestamp
    simp only [SECOND_TO_MICROSECONDS]
    rw [if_pos ⟨hny1, hny2⟩]
    rfl
  · have h0 : (0 : Int) ≤ n.fmod 1000000 := fmod_million_nonneg n
    simp [datetime_to_microseconds_since_epoch, timegm_timetuple,
      SECOND_TO_MICROSECONDS, Int.toNat_of_nonneg h0, fdiv_add_fmod_million n]

/-- C1 is false exactly as stated: `2^62 = 4611686018427387904` is a 64-bit
EncodedTimestamp, yet decoding it yields no Timestamp at all — its seconds
component names calendar year 148108, outside the Timestamp-representable
years 1–9999, so `utcfromtimestamp` raises — hence re-encoding the decoded
Timestamp cannot yield the integer back. -/
theorem timestamp_decode_counterexample :
    microseconds_since_epoch_to_datetime 4611686018427387904 = none := by decide

/-- Witness for C1 at spec example 9: the Timestamp
`2021-03-15T10:30:00.123456 UTC` (epoch second count 1615804200) encodes to
`1615804200123456` and back. -/
theorem timestamp_roundtrip_witness :
    ((1 : Int) ≤ yearOfEpochSeconds 1615804200 ∧
      yearOfEpochSeconds 1615804200 ≤ 9999) ∧
    (datetime_to_microseconds_since_epoch ⟨1615804200, 123456, some 0⟩ =
        .ok 1615804200123456 ∧
      microseconds_since_epoch_to_datetime 1615804200123456 =
        some ⟨1615804200, 123456, some 0⟩) ∧
    (microseconds_since_epoch_to_datetime 1615804200123456 =
        some ⟨(1615804200123456 : Int).fdiv 1000000,
          ((1615804200123456 : Int).fmod 1000000).toNat, some 0⟩ ∧
      datetime_to_microseconds_since_epoch
        ⟨(1615804200123456 : Int).fdiv 1000000,
          ((1615804200123456 : Int).fmod 1000000).toNat, some 0⟩ =
        .ok 1615804200123456) := by
  have h := timestamp_roundtrip_in_calendar_range ⟨1615804200, 123456, some 0⟩
    1615804200123456 rfl (by decide) (by decide) (by decide) (by decide) (by decide)
  exact ⟨⟨by decide, by decide⟩, h.1, h.2⟩

/-- C2. Sort preservation: encoding succeeds on every pair of valid UTC
Timestamps and is strictly monotone — `t1` is chronologically before `t2`
exactly when `encode(t1) < encode(t2)` as integers. -/
theorem encode_strictly_monotone (t1 t2 : Datetime)
    (h1 : t1.tzOffset = some 0) (h2 : t2.tzOffset = some 0)
    (hu1 : t1.usec < 1000000) (hu2 : t2.usec < 1000000) :
    ∃ n1 n2, datetime_to_microseconds_since_epoch t1 = .ok n1 ∧
      datetime_to_microseconds_since_epoch t2 = .ok n2 ∧
      (chronoBefore t1 t2 ↔ n1 < n2) := by
  refine ⟨t1.secs * 1000000 + t1.usec, t2.secs * 1000000 + t2.usec, ?_, ?_, ?_⟩
  · simp [datetime_to_microseconds_since_epoch, h1, timegm_timetuple,
      SECOND_TO_MICROSECONDS]
  · simp [datetime_to_microseconds_since_epoch, h2, timegm_timetuple,
      SECOND_TO_MICROSECONDS]
  · unfold chronoBefore
    omega

/-- Witness for C2: `1970-01-01T00:00:00.000000 UTC` is before
`1970-01-01T00:00:00.000001 UTC` and their encodings compare the same way. -/
theorem encode_strictly_monotone_witness :
    ∃ n1 n2,
      datetime_to_microseconds_since_epoch ⟨0, 0, some 0⟩ = .ok n1 ∧
      datetime_to_microseconds_since_epoch ⟨0, 1, some 0⟩ = .ok n2 ∧
      (chronoBefore ⟨0, 0, some 0⟩ ⟨0, 1, some 0⟩ ↔ n1 < n2) :=
  encode_strictly_monotone ⟨0, 0, some 0⟩ ⟨0, 1, some 0⟩ rfl rfl
    (by decide) (by decide)

/-- C3. Encoding rejects non-UTC input: a Timestamp whose timezone is absent
or whose UTC offset is non-zero fails with the ValueError, and a Timestamp
with an explicit zero UTC offset encodes successfully. -/
theorem encode_requires_utc (t : Datetime) :
    (t.tzOffset = some 0 →
      datetime_to_microseconds_since_epoch t = .ok (t.secs * 1000000 + t.usec)) ∧
    (t.tzOffset ≠ some 0 →
      datetime_to_microseconds_since_epoch t =
        .error "Value passed to this function needs to be in UTC timezone") := by
  constructor
  · intro htz
    simp [datetime_to_microseconds_since_epoch, htz, timegm_timetuple,
      SECOND_TO_MICROSECONDS]
  · intro htz
    unfold datetime_to_microseconds_since_epoch
    cases hoff : t.tzOffset with
    | none => rfl
    | some off =>
        have : off ≠ 0 := by
          intro h
          exact htz (by rw [hoff, h])
        simp [this]

/-- Witness for C3: a zero-offset Timestamp encodes, a naive Timestamp and a
Timestamp at offset +3600 s are both rejected. -/
theorem encode_requires_utc_witness :
    datetime_to_microseconds_since_epoch ⟨0, 0, some 0⟩ = .ok 0 ∧
    datetime_to_microseconds_since_epoch ⟨0, 0, none⟩ =
      .error "Value passed to this function needs to be in UTC timezone" ∧
    datetime_to_microseconds_since_epoch ⟨0, 0, some 3600⟩ =
      .error "Value passed to this function needs to be in UTC timezone" :=
  ⟨(encode_requires_utc ⟨0, 0, some 0⟩).1 rfl,
    (encode_requires_utc ⟨0, 0, none⟩).2 (by decide),
    (encode_requires_utc ⟨0, 0, some 3600⟩).2 (by decide)⟩

/-- C8. Read-path tolerance of `to_python`: an integer-encoded value decodes
to the Timestamp; whenever the conversion fails for any reason — including
the value already being a native Timestamp — the input comes back unchanged;
and on every input the hook either returns the input or a decoded Timestamp
(it is total, never raising). -/
theorem to_python_read_tolerance :
    (∀ (n : Int) (d : Datetime), microseconds_since_epoch_to_datetime n = some d →
      ComplexDateTimeField_to_python (.vint n) = .vdt d) ∧
    (∀ v : TsVal, (∀ r, convert_from_db v ≠ .ok r) →
      ComplexDateTimeField_to_python v = v) ∧
    (∀ d : Datetime, ComplexDateTimeField_to_python (.vdt d) = .vdt d) ∧
    (∀ v : TsVal, ComplexDateTimeField_to_python v = v ∨
      ∃ n d, v = .vint n ∧ microseconds_since_epoch_to_datetime n = some d ∧
        ComplexDateTimeField_to_python v = .vdt d) := by
  refine ⟨?_, ?_, ?_, ?_⟩
  · intro n d h
    simp [ComplexDateTimeField_to_python, convert_from_db, h]
  · intro v h
    unfold ComplexDateTimeField_to_python
    cases hc : convert_from_db v with
    | ok r => exact absurd hc (h r)
    | error e => rfl
  · intro d
    rfl
  · intro v
    cases v with
    | vint n =>
        cases hd : microseconds_since_epoch_to_datetime n with
        | none => left; simp [ComplexDateTimeField_to_python, convert_from_db, hd]
        | some d =>
            right
            exact ⟨n, d, rfl, hd,
              by simp [ComplexDateTimeField_to_python, convert_from_db, hd]⟩
    | vnone => left; rfl
    | vdt d => left; rfl
    | vstr s => left; rfl

/-- Witness for C8: the stored integer `0` decodes to the epoch Timestamp,
and a native Timestamp value passes through unchanged. -/
theorem to_python_read_tolerance_witness :
    ComplexDateTimeField_to_python (.vint 0) = .vdt ⟨0, 0, some 0⟩ ∧
    ComplexDateTimeField_to_python (.vdt ⟨5, 7, none⟩) = .vdt ⟨5, 7, none⟩ :=
  ⟨to_python_read_tolerance.1 0 ⟨0, 0, some 0⟩ (by decide),
    to_python_read_tolerance.2.2.1 ⟨5, 7, none⟩⟩

/-- C10. None/falsy passthrough at the field interface: the write hook
converts only truthy values, so `None` and every falsy value are stored
unchanged without any timezone error, and the read hook returns a stored
`None` as `None` and a stored native Timestamp unchanged — so `None`
round-trips through the field. -/
theorem field_none_passthrough :
    (∀ v : TsVal, v.truthy = false → ComplexDateTimeField_set v = .ok v) ∧
    ComplexDateTimeField_set .vnone = .ok .vnone ∧
    ComplexDateTimeField_get .vnone = .ok .vnone ∧
    (∀ d : Datetime, ComplexDateTimeField_get (.vdt d) = .ok (.vdt d)) := by
  refine ⟨?_, ?_, rfl, fun d => rfl⟩
  · intro v hv
    simp [ComplexDateTimeField_set, hv]
  · rfl

/-- Witness for C10: `None` and the falsy integer `0` are stored unchanged,
and `None` reads back as `None`. -/
theorem field_none_passthrough_witness :
    ComplexDateTimeField_set .vnone = .ok .vnone ∧
    ComplexDateTimeField_set (.vint 0) = .ok (.vint 0) ∧
    ComplexDateTimeField_get .vnone = .ok .vnone :=
  ⟨field_none_passthrough.1 .vnone (by decide),
    field_none_passthrough.1 (.vint 0) (by decide),
    field_none_passthrough.2.2.1⟩

/-! ## Claim theorems: struct codec -/

/-- C4 (amended). Legacy-compatible decode of a native mapping applies the
key-unescaping transform: keys are recursively restored (each escaped `$` and
`.` back to its original character) while non-mapping values are untouched;
e.g. the legacy mapping with the single key `a＄ref` decodes to the
mapping with key `a$ref`. -/
theorem compat_decode_legacy_unescapes (B : JsonBackend) (kvs : PyKvs) :
    JSONDictEscapedFieldCompatibilityField_to_python B (.pdict kvs) =
      .pdict (unescapeKvs kvs) ∧
    (∀ (k : String) (v : Py) (rest : PyKvs), v.isDict = false →
      unescapeKvs (.cons k v rest) =
        .cons (unescapeKey k) v (unescapeKvs rest)) ∧
    JSONDictEscapedFieldCompatibilityField_to_python B
        (.pdict (.cons "a＄ref" (.pint 1) .nil)) =
      .pdict (.cons "a$ref" (.pint 1) .nil) := by
  refine ⟨rfl, ?_, ?_⟩
  · intro k v rest hv
    cases v <;> simp_all [unescapeKvs, unescape_chars, Py.isDict]
  · show unescape_chars (.pdict (.cons "a＄ref" (.pint 1) .nil)) =
      .pdict (.cons "a$ref" (.pint 1) .nil)
    decide

/-- C4 is false exactly as stated: the legacy mapping whose single key is
`a＄ref` does not decode to the mapping with key `$ref` — the transform
only restores escaped characters, so the leading `a` survives. -/
theorem compat_decode_legacy_counterexample :
    JSONDictEscapedFieldCompatibilityField_to_python demoBackend
        (.pdict (.cons "a＄ref" (.pint 1) .nil)) ≠
      .pdict (.cons "$ref" (.pint 1) .nil) := by decide

/-- Witness for C4: an entry with a non-mapping value keeps its value
untouched while its key is unescaped. -/
theorem compat_decode_legacy_unescapes_witness :
    Py.isDict (.pint 5) = false ∧
    unescapeKvs (.cons "x" (.pint 5) .nil) =
      .cons (unescapeKey "x") (.pint 5) (unescapeKvs .nil) :=
  ⟨by decide,
    (compat_decode_legacy_unescapes demoBackend .nil).2.1 "x" (.pint 5) .nil
      (by decide)⟩

/-- C5. The legacy format is never re-emitted: every successful
legacy-compatible encode produces a serialized byte string (never a native
mapping), and a mapping just decoded from the legacy shape encodes to the
current byte-serialized form. -/
theorem compat_encode_never_legacy (B : JsonBackend) :
    (∀ (v r : Py), JSONDictEscapedFieldCompatibilityField_to_mongo B v = .ok r →
      r.isDict = false ∧ ∃ s, r = .pstr s) ∧
    (∀ kvs : PyKvs,
      JSONDictEscapedFieldCompatibilityField_to_mongo B
          (JSONDictEscapedFieldCompatibilityField_to_python B (.pdict kvs)) =
        .ok (.pstr (B.dumps (unescapeKvs kvs)))) := by
  constructor
  · intro v r h
    cases v <;> simp_all [JSONDictEscapedFieldCompatibilityField_to_mongo]
    subst h
    exact ⟨rfl, _, rfl⟩
  · intro kvs
    rfl

/-- Witness for C5: the encode of the empty mapping is a byte string. -/
theorem compat_encode_never_legacy_witness :
    (Py.pstr (demoBackend.dumps .nil)).isDict = false ∧
    ∃ s, Py.pstr (demoBackend.dumps .nil) = .pstr s :=
  (compat_encode_never_legacy demoBackend).1 (.pdict .nil)
    (.pstr (demoBackend.dumps .nil)) rfl

/-- C6. Struct round-trip: for every mapping the backend round-trips
(the contract the three interchangeable JSON backends provide), encoding
produces a byte string whose decode is structurally equal — equal content at
each nesting level, insensitive to key order — to the original mapping. -/
theorem struct_roundtrip (B : JsonBackend) (kvs : PyKvs)
    (h : canonPy (B.loads (B.dumps kvs)) = canonPy (.pdict kvs)) :
    ∃ s, JSONDictField_to_mongo B (.pdict kvs) = .ok (.pstr s) ∧
      canonPy (JSONDictField_to_python B (.pstr s)) = canonPy (.pdict kvs) :=
  ⟨B.dumps kvs, rfl, h⟩

/-- Witness for C6 at spec example 10: the mapping
`{"status": "ok", "count": 3}` round-trips through the concrete backend. -/
theorem struct_roundtrip_witness :
    canonPy (demoBackend.loads (demoBackend.dumps demoKvs)) =
      canonPy (.pdict demoKvs) ∧
    ∃ s, JSONDictField_to_mongo demoBackend (.pdict demoKvs) = .ok (.pstr s) ∧
      canonPy (JSONDictField_to_python demoBackend (.pstr s)) =
        canonPy (.pdict demoKvs) :=
  ⟨by decide, struct_roundtrip demoBackend demoKvs (by decide)⟩

/-- C7. Struct encode rejects non-mappings: on any value that is not a dict,
both `to_mongo` implementations fail with the ValueError and produce no
output; on a dict they serialize it with the selected backend in one step. -/
theorem to_mongo_requires_mapping (B : JsonBackend) (v : Py) :
    (∀ kvs : PyKvs, v = .pdict kvs →
      JSONDictField_to_mongo B v = .ok (.pstr (B.dumps kvs)) ∧
      JSONDictEscapedFieldCompatibilityField_to_mongo B v =
        .ok (.pstr (B.dumps kvs))) ∧
    (v.isDict = false →
      JSONDictField_to_mongo B v = .error "value argument must be a dictionary" ∧
      JSONDictEscapedFieldCompatibilityField_to_mongo B v =
        .error "value argument must be a dictionary") := by
  constructor
  · intro kvs hv
    subst hv
    exact ⟨rfl, rfl⟩
  · intro hv
    cases v <;> simp_all [Py.isDict, JSONDictField_to_mongo,
      JSONDictEscapedFieldCompatibilityField_to_mongo]

/-- Witness for C7: the plain number `7` is rejected by both encoders and the
empty mapping is serialized. -/
theorem to_mongo_requires_mapping_witness :
    (JSONDictField_to_mongo demoBackend (.pdict .nil) =
        .ok (.pstr (demoBackend.dumps .nil)) ∧
      JSONDictEscapedFieldCompatibilityField_to_mongo demoBackend (.pdict .nil) =
        .ok (.pstr (demoBackend.dumps .nil))) ∧
    (JSONDictField_to_mongo demoBackend (.pint 7) =
        .error "value argument must be a dictionary" ∧
      JSONDictEscapedFieldCompatibilityField_to_mongo demoBackend (.pint 7) =
        .error "value argument must be a dictionary") :=
  ⟨(to_mongo_requires_mapping demoBackend (.pdict .nil)).1 .nil rfl,
    (to_mongo_requires_mapping demoBackend (.pint 7)).2 (by decide)⟩

/-- C9. Backend validation at construction: a backend name outside the three
recognized options makes `__init__` fail immediately with the ValueError;
each recognized name (and the default, `orjson`) constructs the codec with
that backend selected. -/
theorem init_validates_backend :
    (∀ s : String, s ∉ ["orjson", "ujson", "cjson"] →
      JSONDictField_init (some s) = .error ("Unsupported backend: " ++ s)) ∧
    JSONDictField_init (some "orjson") = .ok .orjson ∧
    JSONDictField_init (some "ujson") = .ok .ujson ∧
    JSONDictField_init (some "cjson") = .ok .cjson ∧
    JSONDictField_init none = .ok .orjson := by
  refine ⟨?_, rfl, rfl, rfl, rfl⟩
  intro s hs
  simp [JSONDictField_init, hs]

/-- Witness for C9: the unrecognized name `msgpack` is rejected. -/
theorem init_validates_backend_witness :
    JSONDictField_init (some "msgpack") =
      .error ("Unsupported backend: " ++ "msgpack") :=
  init_validates_backend.1 "msgpack" (by decide)
